import Mathlib

/-!
Verification of the gerritbot event-stream and command-channel subsystem
(`gerritbot-gerrit/src/lib.rs`): a shallow embedding of the feed worker,
the command runner and the enrichment stage, together with theorems about
the behaviour claimed in the specification.
-/

namespace Gerritbot

/-! ## JSON values and a line-oriented JSON text parser

The source crate delegates JSON text parsing to `serde_json::from_str`.
We model JSON documents as a small inductive type and parse text with a
fuel-bounded recursive-descent parser covering the fragment the gerrit
schema uses (objects, arrays, strings with escapes, integers, booleans,
null; non-integral numbers are kept as raw `decimal` tokens which the
integer field decoders reject, as serde does). -/

inductive Json where
  | null
  | bool (b : Bool)
  | num (n : Int)
  | decimal (raw : String)
  | str (s : String)
  | arr (elems : List Json)
  | obj (members : List (String × Json))
deriving Repr, Inhabited

def isWs (c : Char) : Bool :=
  c = ' ' || c = '\t' || c = '\n' || c = '\r'

def skipWs : List Char → List Char
  | [] => []
  | c :: cs => if isWs c then skipWs cs else c :: cs

def hexVal (c : Char) : Option Nat :=
  if '0' ≤ c ∧ c ≤ '9' then some (c.toNat - '0'.toNat)
  else if 'a' ≤ c ∧ c ≤ 'f' then some (c.toNat - 'a'.toNat + 10)
  else if 'A' ≤ c ∧ c ≤ 'F' then some (c.toNat - 'A'.toNat + 10)
  else none

def parseHex4 : List Char → Option (Nat × List Char)
  | a :: b :: c :: d :: rest => do
    let va ← hexVal a
    let vb ← hexVal b
    let vc ← hexVal c
    let vd ← hexVal d
    pure (((va * 16 + vb) * 16 + vc) * 16 + vd, rest)
  | _ => none

def parseStringBody : Nat → List Char → List Char → Option (String × List Char)
  | 0, _, _ => none
  | _, _, [] => none
  | fuel + 1, acc, c :: cs =>
    if c = '"' then
      some (String.mk acc.reverse, cs)
    else if c = '\\' then
      match cs with
      | [] => none
      | e :: cs' =>
        if e = '"' then parseStringBody fuel ('"' :: acc) cs'
        else if e = '\\' then parseStringBody fuel ('\\' :: acc) cs'
        else if e = '/' then parseStringBody fuel ('/' :: acc) cs'
        else if e = 'n' then parseStringBody fuel ('\n' :: acc) cs'
        else if e = 't' then parseStringBody fuel ('\t' :: acc) cs'
        else if e = 'r' then parseStringBody fuel ('\r' :: acc) cs'
        else if e = 'b' then parseStringBody fuel ('\x08' :: acc) cs'
        else if e = 'f' then parseStringBody fuel ('\x0c' :: acc) cs'
        else if e = 'u' then
          match parseHex4 cs' with
          | some (n, cs2) => parseStringBody fuel (Char.ofNat n :: acc) cs2
          | none => none
        else none
    else parseStringBody fuel (c :: acc) cs

def isDigit (c : Char) : Bool := '0' ≤ c ∧ c ≤ '9'

def spanDigits : List Char → List Char × List Char
  | [] => ([], [])
  | c :: cs =>
    if isDigit c then
      let (ds, rest) := spanDigits cs
      (c :: ds, rest)
    else ([], c :: cs)

def digitsToNat (ds : List Char) : Nat :=
  ds.foldl (fun acc c => acc * 10 + (c.toNat - '0'.toNat)) 0

def isNumCont (c : Char) : Bool :=
  isDigit c || c = '.' || c = 'e' || c = 'E' || c = '+' || c = '-'

def spanNumCont : List Char → List Char × List Char
  | [] => ([], [])
  | c :: cs =>
    if isNumCont c then
      let (ds, rest) := spanNumCont cs
      (c :: ds, rest)
    else ([], c :: cs)

def parseNumberTok (cs : List Char) : Option (Json × List Char) :=
  let (neg, cs₁) := match cs with
    | '-' :: rest => (true, rest)
    | _ => (false, cs)
  match spanDigits cs₁ with
  | ([], _) => none
  | (ds, rest) =>
    match rest with
    | c :: _ =>
      if c = '.' || c = 'e' || c = 'E' then
        let (tok, rest') := spanNumCont rest
        some (.decimal (String.mk ((if neg then ['-'] else []) ++ ds ++ tok)), rest')
      else
        let n : Int := Int.ofNat (digitsToNat ds)
        some (.num (if neg then -n else n), rest)
    | [] =>
      let n : Int := Int.ofNat (digitsToNat ds)
      some (.num (if neg then -n else n), rest)

mutual

def parseValue : Nat → List Char → Option (Json × List Char)
  | 0, _ => none
  | fuel + 1, cs =>
    match skipWs cs with
    | 'n' :: 'u' :: 'l' :: 'l' :: rest => some (.null, rest)
    | 't' :: 'r' :: 'u' :: 'e' :: rest => some (.bool true, rest)
    | 'f' :: 'a' :: 'l' :: 's' :: 'e' :: rest => some (.bool false, rest)
    | '"' :: rest =>
      (parseStringBody (rest.length + 1) [] rest).map (fun p => (.str p.1, p.2))
    | '[' :: rest =>
      (match skipWs rest with
       | ']' :: rest' => some (.arr [], rest')
       | _ => parseElems fuel rest [])
    | '{' :: rest =>
      (match skipWs rest with
       | '}' :: rest' => some (.obj [], rest')
       | _ => parseMembers fuel rest [])
    | cs' => parseNumberTok cs'

def parseElems : Nat → List Char → List Json → Option (Json × List Char)
  | 0, _, _ => none
  | fuel + 1, cs, acc =>
    match parseValue fuel cs with
    | none => none
    | some (v, rest) =>
      match skipWs rest with
      | ',' :: rest' => parseElems fuel rest' (v :: acc)
      | ']' :: rest' => some (.arr (v :: acc).reverse, rest')
      | _ => none

def parseMembers : Nat → List Char → List (String × Json) → Option (Json × List Char)
  | 0, _, _ => none
  | fuel + 1, cs, acc =>
    match skipWs cs with
    | '"' :: rest =>
      (match parseStringBody (rest.length + 1) [] rest with
       | none => none
       | some (key, rest') =>
         match skipWs rest' with
         | ':' :: rest₂ =>
           (match parseValue fuel rest₂ with
            | none => none
            | some (v, rest₃) =>
              match skipWs rest₃ with
              | ',' :: rest₄ => parseMembers fuel rest₄ ((key, v) :: acc)
              | '}' :: rest₄ => some (.obj ((key, v) :: acc).reverse, rest₄)
              | _ => none)
         | _ => none)
    | _ => none

end

def Json.parse (s : String) : Option Json :=
  let cs := s.toList
  match parseValue (2 * cs.length + 2) cs with
  | some (j, rest) => if (skipWs rest).isEmpty then some j else none
  | none => none

/-! ## The gerrit data model

Each structure mirrors the corresponding `#[derive(Deserialize)]` struct in
`gerritbot-gerrit/src/lib.rs`, with the serde `rename` / `rename_all`
attributes reflected in the JSON keys used by the decoders below.
Machine integers (`u32`, `u64`, `i32`) are `Nat` / `Int` with the range
checked at decode time, as serde does. -/

/-- Gerrit username. -/
def Username := String
deriving Repr, DecidableEq

structure User where
  name : Option String
  username : Username
  email : Option String
deriving Repr, DecidableEq

structure Approval where
  approval_type : String
  description : String
  value : String
  old_value : Option String
deriving Repr, DecidableEq

structure InlineComment where
  file : String
  line : Nat
  reviewer : User
  message : String
deriving Repr, DecidableEq

structure PatchSet where
  number : Nat
  revision : String
  parents : List String
  reference : String
  uploader : User
  created_on : Nat
  author : User
  is_draft : Bool
  kind : String
  size_insertions : Int
  size_deletions : Int
  comments : Option (List InlineComment)
deriving Repr, DecidableEq

inductive ChangeStatus where
  | NEW
  | DRAFT
  | MERGED
  | ABANDONED
deriving Repr, DecidableEq

inductive SubmitStatus where
  | OK
  | NOT_READY
  | RULE_ERROR
deriving Repr, DecidableEq

structure SubmitRecord where
  status : SubmitStatus
deriving Repr, DecidableEq

structure Comment where
  timestamp : Nat
  reviewer : User
  message : String
deriving Repr, DecidableEq

structure Change where
  project : String
  branch : String
  id : String
  number : Nat
  subject : String
  topic : Option String
  owner : User
  url : String
  commit_message : String
  status : ChangeStatus
  current_patch_set : Option PatchSet
  patch_sets : Option (List PatchSet)
  comments : Option (List Comment)
  submit_records : Option (List SubmitRecord)
deriving Repr, DecidableEq

structure ChangeKey where
  id : String
deriving Repr, DecidableEq

/-- Only these two event types are accepted by the schema, by design. -/
inductive EventType where
  | ReviewerAdded
  | CommentAdded
deriving Repr, DecidableEq

structure Event where
  author : Option User
  uploader : Option User
  approvals : Option (List Approval)
  reviewer : Option User
  comment : Option String
  patchset : PatchSet
  change : Change
  project : String
  ref_name : String
  changekey : ChangeKey
  event_type : EventType
  created_on : Nat
deriving Repr, DecidableEq

/-! ## Decoders (the serde `Deserialize` derives) -/

def decodeStr : Json → Except String String
  | .str s => .ok s
  | _ => .error "expected string"

def decodeBool : Json → Except String Bool
  | .bool b => .ok b
  | _ => .error "expected boolean"

def decodeNatBounded (bound : Nat) : Json → Except String Nat
  | .num n => if 0 ≤ n ∧ n < Int.ofNat bound then .ok n.toNat else .error "integer out of range"
  | _ => .error "expected integer"

def decodeU32 : Json → Except String Nat := decodeNatBounded (2 ^ 32)

def decodeU64 : Json → Except String Nat := decodeNatBounded (2 ^ 64)

def decodeI32 : Json → Except String Int
  | .num n => if -(2 ^ 31) ≤ n ∧ n < 2 ^ 31 then .ok n else .error "integer out of range"
  | _ => .error "expected integer"

def decodeListD (dec : Json → Except String α) : Json → Except String (List α)
  | .arr xs => xs.mapM dec
  | _ => .error "expected array"

def getField : Json → String → Option Json
  | .obj ms, key => (ms.find? (fun m => m.1 = key)).map (fun m => m.2)
  | _, _ => none

def reqField (j : Json) (key : String) (dec : Json → Except String α) :
    Except String α :=
  match getField j key with
  | none => .error ("missing field " ++ key)
  | some v => dec v

def optField (j : Json) (key : String) (dec : Json → Except String α) :
    Except String (Option α) :=
  match getField j key with
  | none => .ok none
  | some .null => .ok none
  | some v => (dec v).map some

def User.fromJson (j : Json) : Except String User := do
  let name ← optField j "name" decodeStr
  let username ← reqField j "username" decodeStr
  let email ← optField j "email" decodeStr
  pure { name, username, email }

def Approval.fromJson (j : Json) : Except String Approval := do
  let approval_type ← reqField j "type" decodeStr
  let description ← reqField j "description" decodeStr
  let value ← reqField j "value" decodeStr
  let old_value ← optField j "oldValue" decodeStr
  pure { approval_type, description, value, old_value }

def InlineComment.fromJson (j : Json) : Except String InlineComment := do
  let file ← reqField j "file" decodeStr
  let line ← reqField j "line" decodeU32
  let reviewer ← reqField j "reviewer" User.fromJson
  let message ← reqField j "message" decodeStr
  pure { file, line, reviewer, message }

def PatchSet.fromJson (j : Json) : Except String PatchSet := do
  let number ← reqField j "number" decodeU32
  let revision ← reqField j "revision" decodeStr
  let parents ← reqField j "parents" (decodeListD decodeStr)
  let reference ← reqField j "ref" decodeStr
  let uploader ← reqField j "uploader" User.fromJson
  let created_on ← reqField j "createdOn" decodeU32
  let author ← reqField j "author" User.fromJson
  let is_draft ← reqField j "isDraft" decodeBool
  let kind ← reqField j "kind" decodeStr
  let size_insertions ← reqField j "sizeInsertions" decodeI32
  let size_deletions ← reqField j "sizeDeletions" decodeI32
  let comments ← optField j "comments" (decodeListD InlineComment.fromJson)
  pure { number, revision, parents, reference, uploader, created_on, author,
         is_draft, kind, size_insertions, size_deletions, comments }

def ChangeStatus.fromJson : Json → Except String ChangeStatus
  | .str "NEW" => .ok .NEW
  | .str "DRAFT" => .ok .DRAFT
  | .str "MERGED" => .ok .MERGED
  | .str "ABANDONED" => .ok .ABANDONED
  | _ => .error "unknown variant for ChangeStatus"

def SubmitStatus.fromJson : Json → Except String SubmitStatus
  | .str "OK" => .ok .OK
  | .str "NOT_READY" => .ok .NOT_READY
  | .str "RULE_ERROR" => .ok .RULE_ERROR
  | _ => .error "unknown variant for SubmitStatus"

def SubmitRecord.fromJson (j : Json) : Except String SubmitRecord := do
  let status ← reqField j "status" SubmitStatus.fromJson
  pure { status }

def Comment.fromJson (j : Json) : Except String Comment := do
  let timestamp ← reqField j "timestamp" decodeU64
  let reviewer ← reqField j "reviewer" User.fromJson
  let message ← reqField j "message" decodeStr
  pure { timestamp, reviewer, message }

def Change.fromJson (j : Json) : Except String Change := do
  let project ← reqField j "project" decodeStr
  let branch ← reqField j "branch" decodeStr
  let id ← reqField j "id" decodeStr
  let number ← reqField j "number" decodeU32
  let subject ← reqField j "subject" decodeStr
  let topic ← optField j "topic" decodeStr
  let owner ← reqField j "owner" User.fromJson
  let url ← reqField j "url" decodeStr
  let commit_message ← reqField j "commitMessage" decodeStr
  let status ← reqField j "status" ChangeStatus.fromJson
  let current_patch_set ← optField j "currentPatchSet" PatchSet.fromJson
  let patch_sets ← optField j "patchSets" (decodeListD PatchSet.fromJson)
  let comments ← optField j "comments" (decodeListD Comment.fromJson)
  let submit_records ← optField j "submitRecords" (decodeListD SubmitRecord.fromJson)
  pure { project, branch, id, number, subject, topic, owner, url,
         commit_message, status, current_patch_set, patch_sets, comments,
         submit_records }

def ChangeKey.fromJson (j : Json) : Except String ChangeKey := do
  let id ← reqField j "id" decodeStr
  pure { id }

def EventType.fromJson : Json → Except String EventType
  | .str "reviewer-added" => .ok .ReviewerAdded
  | .str "comment-added" => .ok .CommentAdded
  | _ => .error "unknown variant for EventType"

def Event.fromJson (j : Json) : Except String Event := do
  let author ← optField j "author" User.fromJson
  let uploader ← optField j "uploader" User.fromJson
  let approvals ← optField j "approvals" (decodeListD Approval.fromJson)
  let reviewer ← optField j "reviewer" User.fromJson
  let comment ← optField j "comment" decodeStr
  let patchset ← reqField j "patchSet" PatchSet.fromJson
  let change ← reqField j "change" Change.fromJson
  let project ← reqField j "project" decodeStr
  let ref_name ← reqField j "refName" decodeStr
  let changekey ← reqField j "changeKey" ChangeKey.fromJson
  let event_type ← reqField j "type" EventType.fromJson
  let created_on ← reqField j "eventCreatedOn" decodeU32
  pure { author, uploader, approvals, reviewer, comment, patchset, change,
         project, ref_name, changekey, event_type, created_on }

/-- Model of `serde_json::from_str::<Event>`: parse the text as JSON, then
decode the `Event` schema. -/
def eventFromStr (s : String) : Except String Event :=
  match Json.parse s with
  | none => .error "invalid JSON"
  | some j => Event.fromJson j

/-- Model of `serde_json::from_str::<Change>`. -/
def changeFromStr (s : String) : Except String Change :=
  match Json.parse s with
  | none => .error "invalid JSON"
  | some j => Change.fromJson j

/-! ## The event feed worker (`event_stream`)

The worker thread spawned by `event_stream` is modelled as a function over
a finite script describing the behaviour of the external world: for each
connection cycle, whether `reconnect()` / `channel_session()` / `exec()`
succeed (with the error text otherwise) and the sequence of line reads the
SSH channel produces.  The bounded channel's consumer is modelled by a
capacity: `none` means the receiver is never dropped, `some k` means the
first `k` sends succeed and every later send fails (the receiver is gone).

The worker's behaviour is recorded as a trace of actions; the messages
actually delivered through the channel are the `delivered` actions. -/

/-- One `BufRead::lines()` item: a successfully read line or a read error. -/
inductive ReadEvent where
  | ok (line : String)
  | fail
deriving Repr, DecidableEq

/-- Script for one iteration of the worker's outer `loop`.  `none` means
the corresponding operation succeeds; `some e` that it fails with error
text `e`.  `reconnectResult` is ignored on the first iteration (the
already-open initial session is used). -/
structure Cycle where
  reconnectResult : Option String
  openResult : Option String
  execResult : Option String
  reads : List ReadEvent
deriving Repr, DecidableEq

/-- A message sent through the raw line channel:
`Result<String, StreamError>` where only `StreamError::Terminated` is ever
sent by the worker. -/
inductive RawMsg where
  | line (l : String)
  | terminated (reason : String)
deriving Repr, DecidableEq

/-- Observable actions of the feed worker. -/
inductive Action where
  | reconnected
  | reconnectFailed (e : String)
  | channelOpened
  | channelOpenFailed (e : String)
  | execStarted
  | execFailed (e : String)
  | readOk (l : String)
  | readFailed
  | delivered (m : RawMsg)
  | sendFailed
  | stopped
deriving Repr, DecidableEq

/-- Whether the `sent`-th send on the bounded channel succeeds, for
consumer capacity `cap`. -/
def sendOk (cap : Option Nat) (sent : Nat) : Bool :=
  match cap with
  | none => true
  | some n => sent < n

/-- Model of `send_terminate_msg`: attempt to send
`Err(StreamError::Terminated(reason))`, ignoring a send failure; the
caller then returns `Err(())`, stopping the worker. -/
def sendTerminate (cap : Option Nat) (sent : Nat) (reason : String) :
    List Action × Nat :=
  if sendOk cap sent then ([.delivered (.terminated reason)], sent + 1)
  else ([.sendFailed], sent)

/-- Model of the `for line in buf_channel.lines()` loop: each `Ok` line is
sent downstream; a send failure breaks the loop, as does a read failure;
the end of the script is the end of the `lines()` iterator. -/
def runReadLoop (cap : Option Nat) : Nat → List ReadEvent → List Action × Nat
  | sent, [] => ([], sent)
  | sent, .fail :: _ => ([.readFailed], sent)
  | sent, .ok l :: rest =>
    if sendOk cap sent then
      let t := runReadLoop cap (sent + 1) rest
      (.readOk l :: .delivered (.line l) :: t.1, t.2)
    else ([.readOk l, .sendFailed], sent)

/-- One iteration of the worker's outer `loop`.  Returns the trace, the
updated send count, and whether the loop continues (`false` means the
thread returned). -/
def runCycle (cap : Option Nat) (isFirst : Bool) (sent : Nat) (c : Cycle) :
    List Action × Nat × Bool :=
  -- reconnect step (skipped on the first iteration)
  let (recTr, recSent, recOk) :=
    if isFirst then (([] : List Action), sent, true)
    else
      match c.reconnectResult with
      | none => ([Action.reconnected], sent, true)
      | some e =>
        let (tTr, sent') :=
          sendTerminate cap sent ("Could not connect to Gerrit: " ++ e)
        (Action.reconnectFailed e :: tTr, sent', false)
  if !recOk then (recTr, recSent, false)
  else
    match c.openResult with
    | some e =>
      let (tTr, sent') :=
        sendTerminate cap recSent ("Could not open SSH channel: " ++ e)
      (recTr ++ Action.channelOpenFailed e :: tTr, sent', false)
    | none =>
      match c.execResult with
      | some e =>
        let (tTr, sent') := sendTerminate cap recSent
          ("Could not execute gerrit stream-event command over ssh: " ++ e)
        (recTr ++ Action.channelOpened :: Action.execFailed e :: tTr, sent', false)
      | none =>
        let (rdTr, sent') := runReadLoop cap recSent c.reads
        (recTr ++ Action.channelOpened :: Action.execStarted :: rdTr, sent', true)

/-- The worker's outer `loop`, driven by the finite script of cycles.  If
the script runs out while the worker is still looping the trace simply
ends; a `.stopped` action marks the thread returning. -/
def runCycles (cap : Option Nat) : Bool → Nat → List Cycle → List Action
  | _, _, [] => []
  | isFirst, sent, c :: rest =>
    let t := runCycle cap isFirst sent c
    if t.2.2 then t.1 ++ runCycles cap false t.2.1 rest
    else t.1 ++ [.stopped]

/-- The feed worker thread spawned by `event_stream`. -/
def runFeed (cap : Option Nat) (cycles : List Cycle) : List Action :=
  runCycles cap true 0 cycles

/-- The messages actually delivered through the bounded raw-line channel. -/
def deliveredMsgs (tr : List Action) : List RawMsg :=
  tr.filterMap fun a =>
    match a with
    | .delivered m => some m
    | _ => none

/-- Rust `Debug` formatting of a string (quotes and backslashes escaped). -/
def rustDebugString (s : String) : String :=
  "\"" ++ String.join (s.toList.map fun c =>
    if c = '"' then "\\\""
    else if c = '\\' then "\\\\"
    else String.singleton c) ++ "\""

/-- The `map_err` formatting in `receiver_into_event_stream`:
`format!("Stream error from Gerrit: {:?}", err)` applied to
`StreamError::Terminated(reason)`. -/
def formatStreamError (reason : String) : String :=
  "Stream error from Gerrit: Terminated(" ++ rustDebugString reason ++ ")"

/-- Model of `receiver_into_event_stream`: each delivered `Ok` line is
JSON-decoded, decoding failures are dropped silently, and a delivered
`Err(StreamError)` becomes a stream-level error with the formatted
message. -/
def receiverIntoEventStream (msgs : List RawMsg) : List (Except String Event) :=
  msgs.filterMap fun m =>
    match m with
    | .line l => (eventFromStr l).toOption.map .ok
    | .terminated r => some (.error (formatStreamError r))

/-- Model of `event_stream`: the typed stream observed by the consumer,
for a given consumer capacity and world script. -/
def eventStream (cap : Option Nat) (cycles : List Cycle) :
    List (Except String Event) :=
  receiverIntoEventStream (deliveredMsgs (runFeed cap cycles))

/-! ## The command runner (`CommandRunner::run_commands`)

The worker thread is modelled over a script: each iteration of the
per-request retry `loop` is one `Attempt` describing the outcomes of the
fallible operations in it. -/

instance {ε α : Type _} [DecidableEq ε] [DecidableEq α] : DecidableEq (Except ε α) :=
  fun x y =>
    match x, y with
    | .ok a, .ok b =>
      if h : a = b then .isTrue (by rw [h]) else .isFalse (by intro hc; cases hc; exact h rfl)
    | .error a, .error b =>
      if h : a = b then .isTrue (by rw [h]) else .isFalse (by intro hc; cases hc; exact h rfl)
    | .ok _, .error _ => .isFalse (by intro hc; cases hc)
    | .error _, .ok _ => .isFalse (by intro hc; cases hc)

/-- Script for one iteration of the per-request `loop` in `run_commands`.
`reconnectResult` is consulted only when the connection is unhealthy. -/
structure Attempt where
  reconnectResult : Option String
  openResult : Option String
  execResult : Option String
  readResult : Except String String
  closeResult : Except String Int
deriving Repr, DecidableEq

/-- Result of the per-request `loop`. -/
inductive RunResult where
  | result (r : Except String String)
  | died
  | outOfScript (healthy : Bool)
deriving Repr, DecidableEq

/-- The body of the per-request `loop` in `run_commands`:
reconnect if unhealthy (a permanent reconnect failure kills the worker),
open a session channel (failure marks the connection unhealthy and
retries), exec, read, close-and-exit-status; any failure past the channel
opening resolves as the command's own failure without retry. -/
def runAttempts (healthy : Bool) : List Attempt → RunResult
  | [] => .outOfScript healthy
  | a :: rest =>
    if !healthy && a.reconnectResult.isSome then .died
    else
      match a.openResult with
      | some _ => runAttempts false rest
      | none =>
        match a.execResult with
        | some e => .result (.error ("failed to request exec channel: " ++ e))
        | none =>
          match a.readResult with
          | .error e => .result (.error ("failed to read from channel: " ++ e))
          | .ok data =>
            match a.closeResult with
            | .ok i =>
              if i = 0 then .result (.ok data)
              else .result (.error ("command exited with status " ++ toString i))
            | .error e => .result (.error ("failed to close command channel: " ++ e))

/-- One queued `CommandRequest`, together with the script for its retry
loop and whether the caller's oneshot receiver is still alive when the
worker resolves the response slot. -/
structure Request where
  command : String
  attempts : List Attempt
  callerAlive : Bool
deriving Repr, DecidableEq

/-- How a request ends up from the caller's point of view. -/
inductive Outcome where
  | answered (r : Except String String)
  | dropped
  | unanswered
deriving Repr, DecidableEq

/-- The `for request in receiver.wait()` loop of `run_commands`: requests
are served strictly one at a time, in order.  When resolving the response
slot fails because the caller is gone, the worker returns, so every later
request is left unanswered; likewise when the worker dies or the script
runs out. -/
def runCommandsLoop (healthy : Bool) : List Request → List (String × Outcome)
  | [] => []
  | req :: rest =>
    match runAttempts healthy req.attempts with
    | .result r =>
      if req.callerAlive then
        (req.command, .answered r) :: runCommandsLoop true rest
      else
        (req.command, .dropped) :: rest.map (fun q => (q.command, .unanswered))
    | .died => (req.command, .unanswered) :: rest.map (fun q => (q.command, .unanswered))
    | .outOfScript _ =>
      (req.command, .unanswered) :: rest.map (fun q => (q.command, .unanswered))

/-- The command runner worker starts with a healthy connection. -/
def runCommands (reqs : List Request) : List (String × Outcome) :=
  runCommandsLoop true reqs

/-! ## The enrichment stage (`fetch_extended_info`) -/

inductive ExtendedInfo where
  | SubmitRecords
  | InlineComments
deriving Repr, DecidableEq

/-- The query command built by `fetch_extended_info`. -/
def buildQuery (event : Event) (extended_info : List ExtendedInfo) : String :=
  "gerrit query --format=JSON"
    ++ (if extended_info.contains .SubmitRecords then " --submit-records" else "")
    ++ (if extended_info.contains .InlineComments then " --patch-sets --comments" else "")
    ++ " change:" ++ event.change.id

/-- Strip one trailing carriage return from a reversed line buffer. -/
def stripTrailingCR : List Char → List Char
  | '\r' :: acc => acc
  | acc => acc

/-- Accumulate the lines of a character stream: lines end at a newline
(with a carriage return before it stripped), and a final line without a
terminator is kept as is. -/
def rustLinesAux : List Char → List Char → List String
  | acc, [] => if acc.isEmpty then [] else [String.mk acc.reverse]
  | acc, c :: rest =>
    if c = '\n' then
      String.mk (stripTrailingCR acc).reverse :: rustLinesAux [] rest
    else rustLinesAux (c :: acc) rest

/-- Rust `str::lines`: split at `\n` or `\r\n` line endings, the final
one optional. -/
def rustLines (s : String) : List String :=
  rustLinesAux [] s.toList

/-- The first-line extraction `result.lines().next().unwrap_or("")`. -/
def firstLine (s : String) : String :=
  (rustLines s).headD ""

/-- The merge performed on a successfully decoded query result: replace
the event's patchset with the matching entry of the returned change's
patchset list (if any), and copy over the returned change's submit
records. -/
def mergeExtendedInfo (event : Event) (change : Change) : Event :=
  let event : Event :=
    match change.patch_sets with
    | some patchsets =>
      match patchsets.find? (fun patchset : PatchSet => patchset.number = event.patchset.number) with
      | some patchset => { event with patchset := patchset }
      | none => event
    | none => event
  { event with change := { event.change with submit_records := change.submit_records } }

/-- Model of `fetch_extended_info`.  The command runner is abstracted as a
function from the command text to its resolved outcome; the first
component of the result records the query issued (`none` when the flag
set is empty and no query is made). -/
def fetchExtendedInfo (event : Event) (extended_info : List ExtendedInfo)
    (runCommand : String → Except String String) :
    Option String × Except String Event :=
  if extended_info.isEmpty then (none, .ok event)
  else
    let query := buildQuery event extended_info
    (some query,
      match runCommand query with
      | .error e => .error e
      | .ok result =>
        match changeFromStr (firstLine result) with
        | .error e => .error ("failed to decode result: " ++ e)
        | .ok change => .ok (mergeExtendedInfo event change))

/-- Model of `extended_event_stream`: the feed's typed stream with every
event passed through the enrichment stage (`Stream::and_then`). -/
def extendedEventStream (cap : Option Nat) (cycles : List Cycle)
    (f : Event → List ExtendedInfo)
    (runCommand : String → Except String String) :
    List (Except String Event) :=
  (eventStream cap cycles).map fun x =>
    match x with
    | .error e => .error e
    | .ok ev => (fetchExtendedInfo ev (f ev) runCommand).2

/-! ## Sample data for witnesses -/

def sampleUser : User := ⟨some "Jane", "jane", none⟩

def samplePatchSet : PatchSet :=
  ⟨1, "aaaa", [], "refs/changes/01/1/1", sampleUser, 100, sampleUser, false,
   "REWORK", 1, 0, none⟩

def sampleChange : Change :=
  ⟨"proj", "master", "I1", 7, "subj", none, sampleUser, "http://g/7", "msg",
   .NEW, none, none, none, none⟩

def sampleEvent : Event :=
  ⟨none, none, none, none, some "nice", samplePatchSet, sampleChange, "proj",
   "refs/heads/master", ⟨"I1"⟩, .CommentAdded, 123⟩

/-- A richer patchset, as returned by an enrichment query, sharing the
sample event's patchset number. -/
def richPatchSet : PatchSet :=
  ⟨1, "bbbb", ["cafe"], "refs/changes/01/1/1", sampleUser, 200, sampleUser,
   false, "REWORK", 5, 2, none⟩

/-- The change returned by the sample enrichment query. -/
def richChange : Change :=
  ⟨"proj", "master", "I1", 7, "subj", none, sampleUser, "http://g/7", "msg",
   .NEW, none, some [richPatchSet], none, some [⟨.OK⟩]⟩

/-- JSON text of `richChange`, as the gerrit query command would print it. -/
def richChangeJson : String :=
  "\x7b\"project\":\"proj\",\"branch\":\"master\",\"id\":\"I1\",\"number\":7," ++
  "\"subject\":\"subj\",\"owner\":\x7b\"name\":\"Jane\",\"username\":\"jane\"\x7d," ++
  "\"url\":\"http://g/7\",\"commitMessage\":\"msg\",\"status\":\"NEW\"," ++
  "\"patchSets\":[\x7b\"number\":1,\"revision\":\"bbbb\",\"parents\":[\"cafe\"]," ++
  "\"ref\":\"refs/changes/01/1/1\"," ++
  "\"uploader\":\x7b\"name\":\"Jane\",\"username\":\"jane\"\x7d,\"createdOn\":200," ++
  "\"author\":\x7b\"name\":\"Jane\",\"username\":\"jane\"\x7d,\"isDraft\":false," ++
  "\"kind\":\"REWORK\",\"sizeInsertions\":5,\"sizeDeletions\":2\x7d]," ++
  "\"submitRecords\":[\x7b\"status\":\"OK\"\x7d]\x7d"

/-! ## Helper lemmas about the feed worker -/

/-- The lines delivered downstream by one pass through the read loop (all
`Ok` lines before the first read failure), assuming every send succeeds. -/
def deliveredLines : List ReadEvent → List String
  | [] => []
  | .fail :: _ => []
  | .ok l :: r => l :: deliveredLines r

/-- The trace produced by the read loop when every send succeeds. -/
def readTrace : List ReadEvent → List Action
  | [] => []
  | .fail :: _ => [Action.readFailed]
  | .ok l :: r => .readOk l :: .delivered (.line l) :: readTrace r

/-- The worker trace of a list of healthy cycles (consumer present). -/
def cyclesTrace (isFirst : Bool) : List Cycle → List Action
  | [] => []
  | c :: rest =>
    ((if isFirst then [] else [Action.reconnected]) ++
      Action.channelOpened :: Action.execStarted :: readTrace c.reads)
      ++ cyclesTrace false rest

/-- The lines delivered downstream over a list of healthy cycles. -/
def cyclesLines : List Cycle → List String
  | [] => []
  | c :: rest => deliveredLines c.reads ++ cyclesLines rest

theorem runReadLoop_none :
    ∀ (rs : List ReadEvent) (sent : Nat),
      runReadLoop none sent rs = (readTrace rs, sent + (deliveredLines rs).length)
  | [], sent => by simp [runReadLoop, readTrace, deliveredLines]
  | .fail :: _, sent => by simp [runReadLoop, readTrace, deliveredLines]
  | .ok l :: r, sent => by
    simp only [runReadLoop, sendOk, readTrace, deliveredLines,
      runReadLoop_none r (sent + 1), if_true, List.length_cons, Prod.mk.injEq]
    exact ⟨trivial, by omega⟩

theorem runCycle_healthy (cap : Option Nat) (isFirst : Bool) (sent : Nat)
    (c : Cycle) (h1 : c.reconnectResult = none) (h2 : c.openResult = none)
    (h3 : c.execResult = none) :
    runCycle cap isFirst sent c =
      ((if isFirst then [] else [Action.reconnected]) ++
         Action.channelOpened :: Action.execStarted :: (runReadLoop cap sent c.reads).1,
       (runReadLoop cap sent c.reads).2, true) := by
  cases isFirst <;> simp [runCycle, h1, h2, h3]

theorem runCycle_open_fail (cap : Option Nat) (isFirst : Bool) (sent : Nat)
    (c : Cycle) (e : String) (h1 : c.reconnectResult = none)
    (h2 : c.openResult = some e) :
    runCycle cap isFirst sent c =
      ((if isFirst then [] else [Action.reconnected]) ++
         Action.channelOpenFailed e ::
           (sendTerminate cap sent ("Could not open SSH channel: " ++ e)).1,
       (sendTerminate cap sent ("Could not open SSH channel: " ++ e)).2, false) := by
  cases isFirst <;> simp [runCycle, h1, h2]

theorem runCycle_exec_fail (cap : Option Nat) (isFirst : Bool) (sent : Nat)
    (c : Cycle) (e : String) (h1 : c.reconnectResult = none)
    (h2 : c.openResult = none) (h3 : c.execResult = some e) :
    runCycle cap isFirst sent c =
      ((if isFirst then [] else [Action.reconnected]) ++
         Action.channelOpened :: Action.execFailed e ::
           (sendTerminate cap sent
             ("Could not execute gerrit stream-event command over ssh: " ++ e)).1,
       (sendTerminate cap sent
         ("Could not execute gerrit stream-event command over ssh: " ++ e)).2,
       false) := by
  cases isFirst <;> simp [runCycle, h1, h2, h3]

theorem runCycle_reconnect_fail (cap : Option Nat) (sent : Nat) (c : Cycle)
    (e : String) (h : c.reconnectResult = some e) :
    runCycle cap false sent c =
      (Action.reconnectFailed e ::
         (sendTerminate cap sent ("Could not connect to Gerrit: " ++ e)).1,
       (sendTerminate cap sent ("Could not connect to Gerrit: " ++ e)).2, false) := by
  simp [runCycle, h]

theorem deliveredMsgs_append (xs ys : List Action) :
    deliveredMsgs (xs ++ ys) = deliveredMsgs xs ++ deliveredMsgs ys :=
  List.filterMap_append ..

theorem deliveredMsgs_readTrace (rs : List ReadEvent) :
    deliveredMsgs (readTrace rs) = (deliveredLines rs).map .line := by
  induction rs with
  | nil => rfl
  | cons r rest ih =>
    cases r with
    | ok l =>
      show deliveredMsgs (.readOk l :: .delivered (.line l) :: readTrace rest) = _
      rw [show deliveredMsgs (.readOk l :: .delivered (.line l) :: readTrace rest)
            = RawMsg.line l :: deliveredMsgs (readTrace rest) from rfl, ih]
      rfl
    | fail => rfl

theorem receiver_append (xs ys : List RawMsg) :
    receiverIntoEventStream (xs ++ ys) =
      receiverIntoEventStream xs ++ receiverIntoEventStream ys :=
  List.filterMap_append ..

theorem receiver_lines (ls : List String) :
    receiverIntoEventStream (ls.map .line) =
      (ls.filterMap fun l => (eventFromStr l).toOption).map .ok := by
  induction ls with
  | nil => rfl
  | cons l rest ih =>
    simp only [receiverIntoEventStream, List.map_cons, List.filterMap_cons] at *
    cases h : (eventFromStr l).toOption <;> simp [h, ih]

theorem deliveredLines_map_ok (ls : List String) :
    deliveredLines (ls.map .ok) = ls := by
  induction ls with
  | nil => rfl
  | cons l rest ih => simp [deliveredLines, ih]

theorem stopped_not_in_readTrace (rs : List ReadEvent) :
    Action.stopped ∉ readTrace rs := by
  induction rs with
  | nil => simp [readTrace]
  | cons r rest ih => cases r <;> simp [readTrace, ih]

theorem runFeed_single_healthy_trace (ls : List String) :
    runFeed none [⟨none, none, none, ls.map .ok⟩] =
      Action.channelOpened :: Action.execStarted :: readTrace (ls.map .ok) := by
  unfold runFeed runCycles
  rw [runCycle_healthy none true 0 ⟨none, none, none, ls.map .ok⟩ rfl rfl rfl]
  unfold runCycles
  simp [runReadLoop_none]

/-- Normal form of the observable stream for a single healthy connection
cycle whose reads all succeed, with the consumer present throughout. -/
theorem eventStream_single_healthy (ls : List String) :
    eventStream none [⟨none, none, none, ls.map .ok⟩] =
      (ls.filterMap fun l => (eventFromStr l).toOption).map .ok := by
  unfold eventStream
  rw [runFeed_single_healthy_trace ls]
  have h1 : deliveredMsgs
        (Action.channelOpened :: Action.execStarted :: readTrace (ls.map .ok))
      = deliveredMsgs (readTrace (ls.map .ok)) := rfl
  rw [h1, deliveredMsgs_readTrace, deliveredLines_map_ok, receiver_lines]

/-! ## Claim C1 -/

/-- C1: over a single healthy connection with the consumer present, every
line read from the streaming command that decodes as a valid `Event`
(valid JSON matching the schema, whose event type is necessarily one of
comment-added / reviewer-added) is emitted as exactly one event, in the
exact order the source lines were read, with no reordering, duplication or
loss; lines that fail to decode produce nothing. -/
theorem c1_feed_emits_valid_lines_in_order (ls : List String) :
    eventStream none [⟨none, none, none, ls.map .ok⟩] =
      (ls.filterMap fun l => (eventFromStr l).toOption).map .ok :=
  eventStream_single_healthy ls

/-! ## Claim C2 -/

/-- C2: a line that fails to decode as an `Event` (not valid JSON, or a
disallowed event type, or any other schema mismatch) is dropped silently:
the feed emits nothing for it, no error reaches the consumer, the worker
does not stop, and subsequent valid lines are still delivered exactly as
if the bad line had not been present. -/
theorem c2_invalid_line_dropped_silently (xs ys : List String) (l : String)
    (h : (eventFromStr l).toOption = none) :
    eventStream none [⟨none, none, none, (xs ++ l :: ys).map .ok⟩] =
      eventStream none [⟨none, none, none, (xs ++ ys).map .ok⟩] ∧
    Action.stopped ∉ runFeed none [⟨none, none, none, (xs ++ l :: ys).map .ok⟩] := by
  constructor
  · rw [eventStream_single_healthy, eventStream_single_healthy]
    simp [List.filterMap_append, List.filterMap_cons, h]
  · rw [runFeed_single_healthy_trace]
    have := stopped_not_in_readTrace ((xs ++ l :: ys).map .ok)
    simp_all

/-! ## Multi-cycle helper lemmas -/

theorem readTrace_map_ok_append (ls : List String) (tail : List ReadEvent) :
    readTrace (ls.map .ok ++ tail) = readTrace (ls.map .ok) ++ readTrace tail := by
  induction ls with
  | nil => rfl
  | cons l rest ih => simp [readTrace, ih]

theorem deliveredLines_map_ok_append (ls : List String) (tail : List ReadEvent) :
    deliveredLines (ls.map .ok ++ tail) = ls ++ deliveredLines tail := by
  induction ls with
  | nil => rfl
  | cons l rest ih => simp [deliveredLines, ih]

theorem runCycles_cons (cap : Option Nat) (isFirst : Bool) (sent : Nat)
    (c : Cycle) (rest : List Cycle) :
    runCycles cap isFirst sent (c :: rest) =
      if (runCycle cap isFirst sent c).2.2 then
        (runCycle cap isFirst sent c).1 ++
          runCycles cap false (runCycle cap isFirst sent c).2.1 rest
      else (runCycle cap isFirst sent c).1 ++ [Action.stopped] := rfl

theorem runCycles_cons_healthy (cap : Option Nat) (isFirst : Bool) (sent : Nat)
    (c : Cycle) (rest : List Cycle) (h1 : c.reconnectResult = none)
    (h2 : c.openResult = none) (h3 : c.execResult = none) :
    runCycles cap isFirst sent (c :: rest) =
      ((if isFirst then [] else [Action.reconnected]) ++
        Action.channelOpened :: Action.execStarted :: (runReadLoop cap sent c.reads).1)
        ++ runCycles cap false (runReadLoop cap sent c.reads).2 rest := by
  rw [runCycles_cons, runCycle_healthy cap isFirst sent c h1 h2 h3]
  rfl

theorem runCycles_none_healthy_append (pre : List Cycle)
    (hpre : ∀ x ∈ pre, x.reconnectResult = none ∧ x.openResult = none ∧ x.execResult = none) :
    ∀ (isFirst : Bool) (sent : Nat) (rest : List Cycle),
      runCycles none isFirst sent (pre ++ rest) =
        cyclesTrace isFirst pre ++
          runCycles none (isFirst && pre.isEmpty) (sent + (cyclesLines pre).length) rest := by
  induction pre with
  | nil => intro isFirst sent rest; simp [cyclesTrace, cyclesLines]
  | cons c ps ih =>
    intro isFirst sent rest
    have hc := hpre c (by simp)
    have hps : ∀ x ∈ ps, x.reconnectResult = none ∧ x.openResult = none ∧ x.execResult = none :=
      fun x hx => hpre x (by simp [hx])
    rw [List.cons_append,
      runCycles_cons_healthy none isFirst sent c (ps ++ rest) hc.1 hc.2.1 hc.2.2,
      runReadLoop_none, ih hps false]
    simp only [cyclesTrace, cyclesLines, List.isEmpty_cons, Bool.and_false,
      Bool.false_and, List.length_append, List.append_assoc]
    rw [Nat.add_assoc]

theorem deliveredMsgs_cyclesTrace (isFirst : Bool) (pre : List Cycle) :
    deliveredMsgs (cyclesTrace isFirst pre) = (cyclesLines pre).map .line := by
  induction pre generalizing isFirst with
  | nil => rfl
  | cons c ps ih =>
    show deliveredMsgs (((if isFirst then [] else [Action.reconnected]) ++ _) ++ _) = _
    rw [deliveredMsgs_append, deliveredMsgs_append, ih false]
    have h1 : deliveredMsgs (if isFirst then [] else [Action.reconnected]) = [] := by
      cases isFirst <;> rfl
    have h2 : deliveredMsgs
        (Action.channelOpened :: Action.execStarted :: readTrace c.reads)
        = deliveredMsgs (readTrace c.reads) := rfl
    rw [h1, h2, deliveredMsgs_readTrace]
    simp [cyclesLines]

theorem sendTerminate_none (sent : Nat) (r : String) :
    sendTerminate none sent r = ([.delivered (.terminated r)], sent + 1) := rfl

theorem runCycles_cons_healthy_lit (cap : Option Nat) (isFirst : Bool) (sent : Nat)
    (reads : List ReadEvent) (rest : List Cycle) :
    runCycles cap isFirst sent ((⟨none, none, none, reads⟩ : Cycle) :: rest) =
      ((if isFirst then [] else [Action.reconnected]) ++
        Action.channelOpened :: Action.execStarted :: (runReadLoop cap sent reads).1)
        ++ runCycles cap false (runReadLoop cap sent reads).2 rest :=
  runCycles_cons_healthy cap isFirst sent ⟨none, none, none, reads⟩ rest rfl rfl rfl

theorem runCycles_cons_reconnect_fail_lit (cap : Option Nat) (sent : Nat)
    (e : String) (o x : Option String) (reads : List ReadEvent) (rest : List Cycle) :
    runCycles cap false sent ((⟨some e, o, x, reads⟩ : Cycle) :: rest) =
      (Action.reconnectFailed e ::
        (sendTerminate cap sent ("Could not connect to Gerrit: " ++ e)).1)
        ++ [Action.stopped] := by
  rw [runCycles_cons, runCycle_reconnect_fail cap sent ⟨some e, o, x, reads⟩ e rfl]
  rfl

/-! ## Claim C3 (corrected)

The specification says a line-read failure is followed by
`reconnect_repeatedly()`, which retries forever and cannot fail, so that a
read failure never leads to a terminal error.  The code calls plain
`reconnect()` (a single attempt): if that attempt fails, the worker emits
the `Terminated` error and stops. -/

/-- Counterexample to C3 as stated: in a script with no channel-open and
no exec failures — only a line-read failure followed by a failed single
reconnect attempt — the feed does emit a terminal error downstream. -/
theorem c3_counterexample_read_failure_can_terminate :
    ¬ (∀ cycles : List Cycle,
        (∀ c ∈ cycles, c.openResult = none ∧ c.execResult = none) →
        ∀ x ∈ eventStream none cycles, ∀ e, x ≠ Except.error e) := by
  intro h
  have hmem : (Except.error
        (formatStreamError "Could not connect to Gerrit: connection refused")
        : Except String Event)
      ∈ eventStream none
        [⟨none, none, none, [.fail]⟩,
         ⟨some "connection refused", none, none, []⟩] := by
    rw [show eventStream none
          [⟨none, none, none, [.fail]⟩,
           ⟨some "connection refused", none, none, []⟩]
        = [Except.error
            (formatStreamError "Could not connect to Gerrit: connection refused")]
        from rfl]
    simp
  exact h _ (by simp) _ hmem _ rfl

/-- C3 amended: after a line-read failure the worker makes a single
`reconnect()` attempt.  If it succeeds, the streaming channel is reopened
and delivery resumes with no terminal error; if the single attempt fails,
the feed delivers one terminal error and stops. -/
theorem c3_read_failure_single_reconnect_attempt (ls₁ ls₂ : List String) (e : String) :
    eventStream none
        [⟨none, none, none, ls₁.map .ok ++ [.fail]⟩, ⟨none, none, none, ls₂.map .ok⟩] =
      ((ls₁ ++ ls₂).filterMap fun l => (eventFromStr l).toOption).map .ok ∧
    eventStream none
        [⟨none, none, none, ls₁.map .ok ++ [.fail]⟩, ⟨some e, none, none, ls₂.map .ok⟩] =
      ((ls₁.filterMap fun l => (eventFromStr l).toOption).map .ok)
        ++ [.error (formatStreamError ("Could not connect to Gerrit: " ++ e))] := by
  have hrl1 : ∀ sent, runReadLoop none sent (ls₁.map .ok ++ [.fail]) =
      (readTrace (ls₁.map .ok ++ [.fail]), sent + ls₁.length) := by
    intro sent
    rw [runReadLoop_none, deliveredLines_map_ok_append]
    simp [deliveredLines]
  have hdel : ∀ (isFirst : Bool) (rs : List ReadEvent), deliveredMsgs
      ((if isFirst then [] else [Action.reconnected]) ++
        Action.channelOpened :: Action.execStarted :: readTrace rs)
      = deliveredMsgs (readTrace rs) := by
    intro isFirst rs
    cases isFirst <;> rfl
  have hrt1 : deliveredMsgs (readTrace (ls₁.map .ok ++ [.fail])) = ls₁.map .line := by
    rw [deliveredMsgs_readTrace, deliveredLines_map_ok_append]
    simp [deliveredLines, deliveredLines_map_ok]
  constructor
  · unfold eventStream runFeed
    rw [runCycles_cons_healthy_lit none true 0 _ _, hrl1,
      runCycles_cons_healthy_lit none false _ _ _, runReadLoop_none]
    rw [show ∀ s, runCycles none false s ([] : List Cycle) = [] from fun _ => rfl]
    rw [List.append_nil, deliveredMsgs_append, hdel true, hdel false, hrt1,
      deliveredMsgs_readTrace, deliveredLines_map_ok, ← List.map_append,
      receiver_lines, List.filterMap_append]
  · unfold eventStream runFeed
    rw [runCycles_cons_healthy_lit none true 0 _ _, hrl1,
      runCycles_cons_reconnect_fail_lit none _ e none none _ [],
      sendTerminate_none]
    rw [deliveredMsgs_append, hdel true, hrt1]
    have h4 : deliveredMsgs
        ((Action.reconnectFailed e ::
           [Action.delivered (.terminated ("Could not connect to Gerrit: " ++ e))])
          ++ [Action.stopped])
        = [RawMsg.terminated ("Could not connect to Gerrit: " ++ e)] := rfl
    rw [h4, receiver_append, receiver_lines]
    rfl

/-! ## Claim C4 -/

/-- C4: if opening the SSH exec channel fails, or starting the streaming
command fails — whether on the very first cycle or after any number of
healthy cycles and a successful reconnect — the feed delivers exactly one
`Terminated` error downstream as its final item and the worker stops:
nothing of the remaining script is ever processed and no second terminal
error is emitted. -/
theorem c4_open_or_exec_failure_one_terminal_error (pre : List Cycle)
    (hpre : ∀ x ∈ pre, x.reconnectResult = none ∧ x.openResult = none ∧ x.execResult = none)
    (c : Cycle) (rest : List Cycle) (hrec : c.reconnectResult = none) :
    (∀ e, c.openResult = some e →
      eventStream none (pre ++ c :: rest) =
        ((cyclesLines pre).filterMap fun l => (eventFromStr l).toOption).map .ok
          ++ [.error (formatStreamError ("Could not open SSH channel: " ++ e))] ∧
      Action.stopped ∈ runFeed none (pre ++ c :: rest)) ∧
    (∀ e, c.openResult = none → c.execResult = some e →
      eventStream none (pre ++ c :: rest) =
        ((cyclesLines pre).filterMap fun l => (eventFromStr l).toOption).map .ok
          ++ [.error (formatStreamError
              ("Could not execute gerrit stream-event command over ssh: " ++ e))] ∧
      Action.stopped ∈ runFeed none (pre ++ c :: rest)) := by
  have hfeed : ∀ tail, runFeed none (pre ++ tail) =
      cyclesTrace true pre ++
        runCycles none (pre.isEmpty) (0 + (cyclesLines pre).length) tail := by
    intro tail
    unfold runFeed
    rw [runCycles_none_healthy_append pre hpre true 0 tail]
    simp
  constructor
  · intro e he
    have htr : runFeed none (pre ++ c :: rest) =
        cyclesTrace true pre ++
          (((if pre.isEmpty then [] else [Action.reconnected]) ++
            Action.channelOpenFailed e ::
              [Action.delivered (.terminated ("Could not open SSH channel: " ++ e))])
            ++ [Action.stopped]) := by
      rw [hfeed (c :: rest)]
      unfold runCycles
      rw [runCycle_open_fail none pre.isEmpty _ c e hrec he]
      rfl
    constructor
    · unfold eventStream
      rw [htr, deliveredMsgs_append, deliveredMsgs_cyclesTrace, receiver_append,
        receiver_lines]
      have hterm : deliveredMsgs
          (((if pre.isEmpty then [] else [Action.reconnected]) ++
            Action.channelOpenFailed e ::
              [Action.delivered (.terminated ("Could not open SSH channel: " ++ e))])
            ++ [Action.stopped])
          = [RawMsg.terminated ("Could not open SSH channel: " ++ e)] := by
        cases h : pre.isEmpty <;> simp [h] <;> rfl
      rw [hterm]
      rfl
    · rw [htr]
      simp
  · intro e he1 he2
    have htr : runFeed none (pre ++ c :: rest) =
        cyclesTrace true pre ++
          (((if pre.isEmpty then [] else [Action.reconnected]) ++
            Action.channelOpened :: Action.execFailed e ::
              [Action.delivered (.terminated
                ("Could not execute gerrit stream-event command over ssh: " ++ e))])
            ++ [Action.stopped]) := by
      rw [hfeed (c :: rest)]
      unfold runCycles
      rw [runCycle_exec_fail none pre.isEmpty _ c e hrec he1 he2]
      rfl
    constructor
    · unfold eventStream
      rw [htr, deliveredMsgs_append, deliveredMsgs_cyclesTrace, receiver_append,
        receiver_lines]
      have hterm : deliveredMsgs
          (((if pre.isEmpty then [] else [Action.reconnected]) ++
            Action.channelOpened :: Action.execFailed e ::
              [Action.delivered (.terminated
                ("Could not execute gerrit stream-event command over ssh: " ++ e))])
            ++ [Action.stopped])
          = [RawMsg.terminated
              ("Could not execute gerrit stream-event command over ssh: " ++ e)] := by
        cases h : pre.isEmpty <;> simp [h] <;> rfl
      rw [hterm]
      rfl
    · rw [htr]
      simp

/-- Witness for C4: with no preceding cycles, a channel-open failure
`boom` yields exactly the one terminal error, even though the script
offers a further healthy cycle. -/
theorem c4_witness :
    eventStream none ([] ++ (⟨none, some "boom", none, []⟩ : Cycle) :: [⟨none, none, none, []⟩]) =
      [.error (formatStreamError "Could not open SSH channel: boom")] ∧
    Action.stopped ∈
      runFeed none ([] ++ (⟨none, some "boom", none, []⟩ : Cycle) :: [⟨none, none, none, []⟩]) := by
  have h := (c4_open_or_exec_failure_one_terminal_error []
    (by simp) ⟨none, some "boom", none, []⟩ [⟨none, none, none, []⟩] rfl).1 "boom" rfl
  simpa [cyclesLines] using h

/-! ## Claim C7 (corrected)

The specification says a publish failure (consumer gone) stops the worker
silently.  In the code the failed `send` only `break`s the inner read
loop; the outer `loop` then continues into the reconnect path exactly as
after a read failure, so the worker reconnects and reopens the channel
rather than stopping. -/

/-- Counterexample to C7 as stated: after a send failure the worker does
not stop — its trace continues with a reconnect attempt. -/
theorem c7_counterexample_publish_failure_reconnects :
    ¬ (∀ (cap : Option Nat) (cycles : List Cycle) (pre post : List Action),
        runFeed cap cycles = pre ++ Action.sendFailed :: post →
        ∀ a ∈ post, a ≠ Action.reconnected ∧ ∀ m, a ≠ Action.delivered m) := by
  intro h
  have heq : runFeed (some 0) [⟨none, none, none, [.ok "a"]⟩, ⟨none, none, none, []⟩]
      = [Action.channelOpened, Action.execStarted, Action.readOk "a"]
        ++ Action.sendFailed ::
          [Action.reconnected, Action.channelOpened, Action.execStarted] := rfl
  exact (h _ _ _ _ heq Action.reconnected (by simp)).1 rfl

theorem runReadLoop_some_ok_prefix (k : Nat) :
    ∀ (ls : List String) (sent : Nat) (tail : List ReadEvent),
      sent + ls.length ≤ k →
      runReadLoop (some k) sent (ls.map .ok ++ tail) =
        (readTrace (ls.map .ok) ++ (runReadLoop (some k) (sent + ls.length) tail).1,
         (runReadLoop (some k) (sent + ls.length) tail).2)
  | [], sent, tail, _ => by simp [readTrace]
  | l :: ls', sent, tail, h => by
    have hsend : sendOk (some k) sent = true := by
      simp only [sendOk, decide_eq_true_eq]
      simp only [List.length_cons] at h
      omega
    have ih := runReadLoop_some_ok_prefix k ls' (sent + 1) tail
      (by simp only [List.length_cons] at h; omega)
    have hstep : runReadLoop (some k) sent ((l :: ls').map .ok ++ tail) =
        (Action.readOk l :: Action.delivered (.line l) ::
           (runReadLoop (some k) (sent + 1) (ls'.map .ok ++ tail)).1,
         (runReadLoop (some k) (sent + 1) (ls'.map .ok ++ tail)).2) := by
      simp [runReadLoop, hsend]
    rw [hstep, ih]
    rw [show sent + 1 + ls'.length = sent + (l :: ls').length from by simp; omega]
    simp [readTrace]

/-- C7 amended: when publishing a line fails because the consumer is
gone, the worker leaves the read loop without emitting any terminal
error, and then continues into the reconnect path (exactly as after a
read failure) instead of stopping at that point. -/
theorem c7_publish_failure_breaks_to_reconnect (k : Nat) (ls : List String)
    (l : String) (rs : List ReadEvent) (rest : List Cycle) (h : ls.length = k) :
    runFeed (some k) ((⟨none, none, none, ls.map .ok ++ .ok l :: rs⟩ : Cycle) :: rest) =
      ([] ++ Action.channelOpened :: Action.execStarted ::
        (readTrace (ls.map .ok) ++ [Action.readOk l, Action.sendFailed]))
        ++ runCycles (some k) false k rest := by
  subst h
  unfold runFeed
  rw [runCycles_cons_healthy_lit (some ls.length) true 0 _ rest,
    runReadLoop_some_ok_prefix ls.length ls 0 (.ok l :: rs) (by omega)]
  have hfail : runReadLoop (some ls.length) (0 + ls.length) (.ok l :: rs) =
      ([Action.readOk l, Action.sendFailed], 0 + ls.length) := by
    simp [runReadLoop, sendOk]
  rw [hfail]
  simp

/-- Witness for C7 amended: with the consumer gone from the start, the
very first line's send fails and the worker proceeds to the next cycle
(the reconnect path). -/
theorem c7_witness :
    runFeed (some 0)
        ((⟨none, none, none, ([] : List String).map .ok ++ .ok "a" :: []⟩ : Cycle)
          :: [⟨none, none, none, []⟩]) =
      ([] ++ Action.channelOpened :: Action.execStarted ::
        (readTrace (([] : List String).map .ok) ++ [Action.readOk "a", Action.sendFailed]))
        ++ runCycles (some 0) false 0 [⟨none, none, none, []⟩] :=
  c7_publish_failure_breaks_to_reconnect 0 [] "a" [] [⟨none, none, none, []⟩] rfl

/-! ## Claim C5 -/

theorem runAttempts_false_cons (b : Attempt) (tail : List Attempt)
    (h : b.reconnectResult = none) :
    runAttempts false (b :: tail) = runAttempts true (b :: tail) := by
  simp [runAttempts, h]

theorem runAttempts_openfail_prefix (pre : List Attempt)
    (hpre : ∀ x ∈ pre, (∃ e, x.openResult = some e) ∧ x.reconnectResult = none)
    (a : Attempt) (rest : List Attempt) (ha : a.reconnectResult = none) :
    runAttempts true (pre ++ a :: rest) = runAttempts true (a :: rest) := by
  induction pre with
  | nil => rfl
  | cons p ps ih =>
    obtain ⟨⟨e, hpe⟩, _⟩ := hpre p (by simp)
    have hps : ∀ x ∈ ps, (∃ e, x.openResult = some e) ∧ x.reconnectResult = none :=
      fun x hx => hpre x (by simp [hx])
    have step : runAttempts true (p :: (ps ++ a :: rest)) =
        runAttempts false (ps ++ a :: rest) := by
      simp [runAttempts, hpe]
    have cast : runAttempts false (ps ++ a :: rest) =
        runAttempts true (ps ++ a :: rest) := by
      cases ps with
      | nil => simpa using runAttempts_false_cons a rest ha
      | cons q qs =>
        exact runAttempts_false_cons q _ (hps q (by simp)).2
    rw [List.cons_append, step, cast, ih hps]

/-- C5: each command is executed at most once past channel opening: exit
status 0 resolves the caller's request with the captured stdout text,
a nonzero exit status resolves it with an error describing that status,
and an exec, read or close failure mid-flight resolves as that single
command's own failure — in every case the result is independent of any
remaining script (no retry), and with the caller present the worker
answers the request and continues with subsequent requests. -/
theorem c5_command_result_semantics (pre : List Attempt)
    (hpre : ∀ x ∈ pre, (∃ e, x.openResult = some e) ∧ x.reconnectResult = none)
    (a : Attempt) (rest : List Attempt)
    (hrec : a.reconnectResult = none) (hopen : a.openResult = none) :
    (∀ data, a.execResult = none → a.readResult = .ok data → a.closeResult = .ok 0 →
      runAttempts true (pre ++ a :: rest) = .result (.ok data)) ∧
    (∀ data i, a.execResult = none → a.readResult = .ok data → a.closeResult = .ok i →
      i ≠ 0 → runAttempts true (pre ++ a :: rest) =
        .result (.error ("command exited with status " ++ toString i))) ∧
    (∀ e, a.execResult = some e →
      runAttempts true (pre ++ a :: rest) =
        .result (.error ("failed to request exec channel: " ++ e))) ∧
    (∀ e, a.execResult = none → a.readResult = .error e →
      runAttempts true (pre ++ a :: rest) =
        .result (.error ("failed to read from channel: " ++ e))) ∧
    (∀ data e, a.execResult = none → a.readResult = .ok data → a.closeResult = .error e →
      runAttempts true (pre ++ a :: rest) =
        .result (.error ("failed to close command channel: " ++ e))) ∧
    (∀ (cmd : String) (r : Except String String) (others : List Request),
      runAttempts true (pre ++ a :: rest) = .result r →
      runCommandsLoop true (⟨cmd, pre ++ a :: rest, true⟩ :: others) =
        (cmd, .answered r) :: runCommandsLoop true others) := by
  have hhead := runAttempts_openfail_prefix pre hpre a rest hrec
  refine ⟨?_, ?_, ?_, ?_, ?_, ?_⟩
  · intro data h1 h2 h3
    rw [hhead]
    simp [runAttempts, hopen, h1, h2, h3]
  · intro data i h1 h2 h3 h4
    rw [hhead]
    simp [runAttempts, hopen, h1, h2, h3, h4]
  · intro e h1
    rw [hhead]
    simp [runAttempts, hopen, h1]
  · intro e h1 h2
    rw [hhead]
    simp [runAttempts, hopen, h1, h2]
  · intro data e h1 h2 h3
    rw [hhead]
    simp [runAttempts, hopen, h1, h2, h3]
  · intro cmd r others hres
    simp [runCommandsLoop, hres]

/-- Witness for C5: the specification's example — the query command
exiting with status 1 resolves the caller's request with a failure
carrying that exit status. -/
theorem c5_witness :
    runAttempts true ([] ++ (⟨none, none, none, .ok "", .ok 1⟩ : Attempt) :: []) =
      .result (.error ("command exited with status " ++ toString (1 : Int))) ∧
    runCommandsLoop true [⟨"gerrit query --format=JSON change:I1",
        [] ++ (⟨none, none, none, .ok "", .ok 1⟩ : Attempt) :: [], true⟩] =
      [("gerrit query --format=JSON change:I1",
        .answered (.error ("command exited with status " ++ toString (1 : Int))))] := by
  have h := c5_command_result_semantics [] (by simp)
    ⟨none, none, none, .ok "", .ok 1⟩ [] rfl rfl
  have hr := h.2.1 "" 1 rfl rfl rfl (by decide)
  refine ⟨hr, ?_⟩
  have h6 := h.2.2.2.2.2 "gerrit query --format=JSON change:I1" _ [] hr
  simpa using h6

/-! ## Claim C6 (corrected)

The specification says that when the caller has abandoned its response
slot the outcome is discarded and the worker continues serving later
requests.  In the code, a failed `sender.send(command_result)` makes the
worker `return`: the outcome is indeed discarded, but the worker thread
exits and subsequent requests are never served. -/

/-- Counterexample to C6 as stated: a second request, submitted after a
first request whose caller abandoned the slot, is not answered. -/
theorem c6_counterexample_worker_stops_after_dropped_slot :
    ¬ (∀ (r1 r2 : Request) (x1 x2 : Except String String),
        runAttempts true r1.attempts = .result x1 →
        r1.callerAlive = false →
        runAttempts true r2.attempts = .result x2 →
        r2.callerAlive = true →
        runCommandsLoop true [r1, r2] =
          [(r1.command, .dropped), (r2.command, .answered x2)]) := by
  intro h
  have h1 : runAttempts true [(⟨none, none, none, .ok "out1", .ok 0⟩ : Attempt)]
      = .result (.ok "out1") := rfl
  have h2 : runAttempts true [(⟨none, none, none, .ok "out2", .ok 0⟩ : Attempt)]
      = .result (.ok "out2") := rfl
  have hc := h ⟨"c1", [⟨none, none, none, .ok "out1", .ok 0⟩], false⟩
    ⟨"c2", [⟨none, none, none, .ok "out2", .ok 0⟩], true⟩
    (.ok "out1") (.ok "out2") h1 rfl h2 rfl
  rw [show runCommandsLoop true
        [⟨"c1", [⟨none, none, none, .ok "out1", .ok 0⟩], false⟩,
         ⟨"c2", [⟨none, none, none, .ok "out2", .ok 0⟩], true⟩]
      = [("c1", Outcome.dropped), ("c2", Outcome.unanswered)] from rfl] at hc
  simp at hc

/-- C6 amended: when the worker resolves a request's single-use response
slot and the caller has abandoned it, the outcome is discarded and the
worker shuts down — every subsequent queued request is left unanswered
(its caller sees a closed-channel error), rather than being served. -/
theorem c6_dropped_slot_stops_worker (req : Request) (rest : List Request)
    (r : Except String String) (h1 : runAttempts true req.attempts = .result r)
    (h2 : req.callerAlive = false) :
    runCommandsLoop true (req :: rest) =
      (req.command, .dropped) :: rest.map (fun q => (q.command, .unanswered)) := by
  simp [runCommandsLoop, h1, h2]

/-- Witness for C6 amended: the dropped first request stops the worker
and the second request is left unanswered. -/
theorem c6_witness :
    runCommandsLoop true [⟨"c1", [⟨none, none, none, .ok "out1", .ok 0⟩], false⟩,
        ⟨"c2", [⟨none, none, none, .ok "out2", .ok 0⟩], true⟩] =
      [("c1", .dropped), ("c2", .unanswered)] := by
  have h := c6_dropped_slot_stops_worker
    ⟨"c1", [⟨none, none, none, .ok "out1", .ok 0⟩], false⟩
    [⟨"c2", [⟨none, none, none, .ok "out2", .ok 0⟩], true⟩] (.ok "out1") rfl rfl
  simpa using h

/-- Witness for C2: a syntactically valid JSON line whose event type
`merge-failed` is not an accepted variant is dropped, and the feed emits
nothing for a stream consisting only of that line. -/
theorem c2_witness :
    (eventFromStr "\x7b\"type\":\"merge-failed\"\x7d").toOption = none ∧
    eventStream none
      [⟨none, none, none, ["\x7b\"type\":\"merge-failed\"\x7d"].map .ok⟩] = [] := by
  have h : (eventFromStr "\x7b\"type\":\"merge-failed\"\x7d").toOption = none := by decide
  refine ⟨h, ?_⟩
  have h2 := (c2_invalid_line_dropped_silently [] [] "\x7b\"type\":\"merge-failed\"\x7d" h).1
  simpa [eventStream_single_healthy] using h2

/-! ## Claims C8, C9, C10: the enrichment stage -/

theorem mergeExtendedInfo_patchset_found (event : Event) (change : Change)
    (ps : List PatchSet) (p : PatchSet) (hps : change.patch_sets = some ps)
    (hf : ps.find? (fun patchset : PatchSet =>
      patchset.number = event.patchset.number) = some p) :
    (mergeExtendedInfo event change).patchset = p := by
  simp [mergeExtendedInfo, hps, hf]

/-- C8: on a successful enrichment query whose first output line decodes
to a `Change`, the event's patchset is replaced by the entry of the
returned patchset list whose number equals the event's current patchset
number, and is left untouched when no entry matches or no patchset list
is returned. -/
theorem c8_patchset_replacement (event : Event) (flags : List ExtendedInfo)
    (runCommand : String → Except String String) (out : String) (change : Change)
    (hne : flags ≠ []) (hrun : runCommand (buildQuery event flags) = .ok out)
    (hdec : changeFromStr (firstLine out) = .ok change) :
    (fetchExtendedInfo event flags runCommand).2 =
      .ok (mergeExtendedInfo event change) ∧
    (∀ (ps : List PatchSet) (p : PatchSet), change.patch_sets = some ps →
      ps.find? (fun patchset : PatchSet =>
        patchset.number = event.patchset.number) = some p →
      (mergeExtendedInfo event change).patchset = p) ∧
    (∀ ps : List PatchSet, change.patch_sets = some ps →
      ps.find? (fun patchset : PatchSet =>
        patchset.number = event.patchset.number) = none →
      (mergeExtendedInfo event change).patchset = event.patchset) ∧
    (change.patch_sets = none →
      (mergeExtendedInfo event change).patchset = event.patchset) := by
  have hne2 : flags.isEmpty = false := by
    cases flags
    · cases hne rfl
    · rfl
  refine ⟨by simp [fetchExtendedInfo, hne2, hrun, hdec], ?_, ?_, ?_⟩
  · intro ps p hps hf
    exact mergeExtendedInfo_patchset_found event change ps p hps hf
  · intro ps hps hf
    simp [mergeExtendedInfo, hps, hf]
  · intro hps
    simp [mergeExtendedInfo, hps]

set_option maxRecDepth 8000 in
/-- Witness for C8: a query result carrying a patchset list with a
matching entry replaces the sample event's patchset with that richer
entry. -/
theorem c8_witness :
    (fetchExtendedInfo sampleEvent [.InlineComments]
        (fun _ => .ok richChangeJson)).2 =
      .ok (mergeExtendedInfo sampleEvent richChange) ∧
    (mergeExtendedInfo sampleEvent richChange).patchset = richPatchSet := by
  have h := c8_patchset_replacement sampleEvent [.InlineComments]
    (fun _ => .ok richChangeJson) richChangeJson richChange
    (by decide) rfl (by decide)
  exact ⟨h.1, h.2.1 [richPatchSet] richPatchSet (by decide) (by decide)⟩

theorem mergeExtendedInfo_frame (event : Event) (change : Change) :
    (mergeExtendedInfo event change).author = event.author ∧
    (mergeExtendedInfo event change).uploader = event.uploader ∧
    (mergeExtendedInfo event change).approvals = event.approvals ∧
    (mergeExtendedInfo event change).reviewer = event.reviewer ∧
    (mergeExtendedInfo event change).comment = event.comment ∧
    (mergeExtendedInfo event change).project = event.project ∧
    (mergeExtendedInfo event change).ref_name = event.ref_name ∧
    (mergeExtendedInfo event change).changekey = event.changekey ∧
    (mergeExtendedInfo event change).event_type = event.event_type ∧
    (mergeExtendedInfo event change).created_on = event.created_on ∧
    (mergeExtendedInfo event change).change.project = event.change.project ∧
    (mergeExtendedInfo event change).change.branch = event.change.branch ∧
    (mergeExtendedInfo event change).change.id = event.change.id ∧
    (mergeExtendedInfo event change).change.number = event.change.number ∧
    (mergeExtendedInfo event change).change.subject = event.change.subject ∧
    (mergeExtendedInfo event change).change.topic = event.change.topic ∧
    (mergeExtendedInfo event change).change.owner = event.change.owner ∧
    (mergeExtendedInfo event change).change.url = event.change.url ∧
    (mergeExtendedInfo event change).change.commit_message
      = event.change.commit_message ∧
    (mergeExtendedInfo event change).change.status = event.change.status ∧
    (mergeExtendedInfo event change).change.current_patch_set
      = event.change.current_patch_set ∧
    (mergeExtendedInfo event change).change.patch_sets = event.change.patch_sets ∧
    (mergeExtendedInfo event change).change.comments = event.change.comments := by
  unfold mergeExtendedInfo
  cases hps : change.patch_sets with
  | none => simp
  | some ps =>
    cases hf : ps.find? (fun patchset : PatchSet =>
        patchset.number = event.patchset.number) with
    | none => simp [hf]
    | some p => simp [hf]

/-- C9: a successful pass through the enrichment stage changes at most
the event's patchset and its change's submit-records; every other field
of the event and of its change is unchanged, and with an empty flag set
the event passes through entirely unchanged with no query issued. -/
theorem c9_enrichment_frame (event : Event) (flags : List ExtendedInfo)
    (runCommand : String → Except String String) :
    (flags = [] → fetchExtendedInfo event flags runCommand = (none, .ok event)) ∧
    (∀ e', (fetchExtendedInfo event flags runCommand).2 = .ok e' →
      e'.author = event.author ∧
      e'.uploader = event.uploader ∧
      e'.approvals = event.approvals ∧
      e'.reviewer = event.reviewer ∧
      e'.comment = event.comment ∧
      e'.project = event.project ∧
      e'.ref_name = event.ref_name ∧
      e'.changekey = event.changekey ∧
      e'.event_type = event.event_type ∧
      e'.created_on = event.created_on ∧
      e'.change.project = event.change.project ∧
      e'.change.branch = event.change.branch ∧
      e'.change.id = event.change.id ∧
      e'.change.number = event.change.number ∧
      e'.change.subject = event.change.subject ∧
      e'.change.topic = event.change.topic ∧
      e'.change.owner = event.change.owner ∧
      e'.change.url = event.change.url ∧
      e'.change.commit_message = event.change.commit_message ∧
      e'.change.status = event.change.status ∧
      e'.change.current_patch_set = event.change.current_patch_set ∧
      e'.change.patch_sets = event.change.patch_sets ∧
      e'.change.comments = event.change.comments) := by
  constructor
  · intro h
    subst h
    rfl
  · intro e' hok
    cases hic : flags.isEmpty
    · cases hrc : runCommand (buildQuery event flags) with
      | error e =>
        rw [show (fetchExtendedInfo event flags runCommand).2 = .error e from by
          simp [fetchExtendedInfo, hic, hrc]] at hok
        cases hok
      | ok out =>
        cases hcf : changeFromStr (firstLine out) with
        | error e2 =>
          rw [show (fetchExtendedInfo event flags runCommand).2 =
              .error ("failed to decode result: " ++ e2) from by
            simp [fetchExtendedInfo, hic, hrc, hcf]] at hok
          cases hok
        | ok ch =>
          rw [show (fetchExtendedInfo event flags runCommand).2 =
              .ok (mergeExtendedInfo event ch) from by
            simp [fetchExtendedInfo, hic, hrc, hcf]] at hok
          cases hok
          exact mergeExtendedInfo_frame event ch
    · have hflags : flags = [] := by
        cases flags
        · rfl
        · cases hic
      subst hflags
      rw [show (fetchExtendedInfo event [] runCommand).2 = .ok event from rfl] at hok
      cases hok
      simp

/-- Witness for C9: with an empty flag set the sample event passes
through unchanged and no query is issued; in particular its change key is
preserved. -/
theorem c9_witness :
    fetchExtendedInfo sampleEvent [] (fun _ => .error "no server") =
      (none, .ok sampleEvent) ∧
    sampleEvent.changekey = sampleEvent.changekey := by
  have h := c9_enrichment_frame sampleEvent [] (fun _ => .error "no server")
  exact ⟨h.1 rfl, (h.2 sampleEvent (by rw [h.1 rfl])).2.2.2.2.2.2.2.1⟩

/-- C10: when an enrichment query succeeds but returns no output lines,
the first-line extraction is total (it yields the empty string), the
enrichment for that single event resolves to a decode-error failure, and
the feed is unaffected: the enriched stream has exactly one item per item
of the underlying feed regardless of enrichment outcomes. -/
theorem c10_empty_output_decode_error (event : Event) (flags : List ExtendedInfo)
    (runCommand : String → Except String String) (hne : flags ≠ [])
    (hrun : runCommand (buildQuery event flags) = .ok "") :
    firstLine "" = "" ∧
    (fetchExtendedInfo event flags runCommand).2 =
      .error ("failed to decode result: " ++ "invalid JSON") ∧
    (∀ (cap : Option Nat) (cycles : List Cycle) (g : Event → List ExtendedInfo)
       (r : String → Except String String),
      (extendedEventStream cap cycles g r).length = (eventStream cap cycles).length) := by
  have hne2 : flags.isEmpty = false := by
    cases flags
    · cases hne rfl
    · rfl
  have hdecode : changeFromStr (firstLine "") = .error "invalid JSON" := rfl
  refine ⟨rfl, ?_, ?_⟩
  · simp [fetchExtendedInfo, hne2, hrun, hdecode]
  · intro cap cycles g r
    exact List.length_map ..

/-- Witness for C10: a query answered with empty text makes the sample
event's enrichment fail with a decode error. -/
theorem c10_witness :
    firstLine "" = "" ∧
    (fetchExtendedInfo sampleEvent [.SubmitRecords] (fun _ => .ok "")).2 =
      .error ("failed to decode result: " ++ "invalid JSON") := by
  have h := c10_empty_output_decode_error sampleEvent [.SubmitRecords]
    (fun _ => .ok "") (by decide) rfl
  exact ⟨h.1, h.2.1⟩

end Gerritbot
